import Mathlib

/-!
Verification development for the data-cleaning pipeline of
`src/preprocessing.py` (`load_and_clean_data`).

A pandas `DataFrame` is modelled column-wise: a frame is a list of columns,
each column carrying its name, its pandas dtype and its list of cells.  The
dtype is tracked explicitly because the source relies on it in three places:
`select_dtypes(include=['float64','int64'])` picks the columns to zero-fill,
the `.str` accessor used by the country filter raises unless the column has
`object` dtype, and `pd.to_datetime` turns the date column into a
`datetime64` column.  Missing values (NaN/NaT) are the `NA` cell; numbers,
strings and parsed dates are the other cells.  Exceptions raised by the
Python code are modelled with `Except`.
-/

/-- One cell of a pandas column: missing (NaN/NaT), a number, a string, or a
parsed calendar date (a `datetime64` value). -/

inductive Cell where
  | NA : Cell
  | num : Int → Cell
  | str : String → Cell
  | date : Int → Cell
deriving DecidableEq

/-- Dtype of a pandas column as far as the pipeline observes it: `numeric`
stands for `float64`/`int64` (exactly the dtypes selected by
`select_dtypes(include=['float64','int64'])`), `object` for string-bearing
columns, `datetime` for the `datetime64` columns produced by
`pd.to_datetime`. -/
inductive DType where
  | numeric : DType
  | object : DType
  | datetime : DType
deriving DecidableEq

/-- One named column of a frame. -/
structure Column where
  name : String
  dtype : DType
  cells : List Cell
deriving DecidableEq

/-- A pandas DataFrame, column-oriented. -/
structure DataFrame where
  cols : List Column
deriving DecidableEq

/-- Exceptions the pipeline can raise.  `SchemaError` models the `KeyError`
pandas raises for a missing required column, `ParseError` the failure of
`pd.to_datetime`, `AttributeError` the failure of the `.str` accessor on a
column that is not `object`-dtyped, and `TypeError` the failure of column
arithmetic on non-numeric cells or dtypes. -/
inductive Err where
  | SchemaError : Err
  | ParseError : Err
  | AttributeError : Err
  | TypeError : Err
deriving DecidableEq

/-- Names of the columns of a frame, in order. -/
def colNames (df : DataFrame) : List String := df.cols.map Column.name

/-- Column access `df[n]`: the first column named `n`, if any. -/
def getCol (df : DataFrame) (n : String) : Option Column :=
  df.cols.find? (fun c => c.name == n)

/-- Cell at row `i` of column `n`. -/
def getCell (df : DataFrame) (n : String) (i : Nat) : Option Cell :=
  match getCol df n with
  | none => none
  | some c => c.cells.get? i

/-- Value of a decimal digit character, if it is one. -/
def charDigit (c : Char) : Option Nat :=
  if c = '0' then some 0 else if c = '1' then some 1 else if c = '2' then some 2
  else if c = '3' then some 3 else if c = '4' then some 4 else if c = '5' then some 5
  else if c = '6' then some 6 else if c = '7' then some 7 else if c = '8' then some 8
  else if c = '9' then some 9 else none

/-- Decimal value of a digit string, accumulator form. -/
def digitsValAux : List Char → Nat → Option Nat
  | [], acc => some acc
  | c :: cs, acc =>
    match charDigit c with
    | none => none
    | some d => digitsValAux cs (acc * 10 + d)

/-- Decimal value of a nonempty digit string. -/
def digitsVal : List Char → Option Nat
  | [] => none
  | l => digitsValAux l 0

/-- Split a character list on the dash character. -/
def splitDash : List Char → List (List Char)
  | [] => [[]]
  | c :: rest =>
    if c = '-' then [] :: splitDash rest
    else
      match splitDash rest with
      | [] => [[c]]
      | g :: gs => (c :: g) :: gs

/-- Model of the pandas `pd.to_datetime` parser restricted to ISO
`yyyy-mm-dd` strings, which is the format of the `date` column of the
dataset.  A parsed date is encoded as the integer `y*10000 + m*100 + d`;
any string not of that shape is unparseable and makes `to_datetime`
raise. -/
def tryParseDate (s : String) : Option Int :=
  match splitDash s.toList with
  | [y, m, d] =>
    match digitsVal y, digitsVal m, digitsVal d with
    | some yn, some mn, some dn =>
      if y.length = 4 ∧ 1 ≤ mn ∧ mn ≤ 12 ∧ 1 ≤ dn ∧ dn ≤ 31 then
        some (Int.ofNat (yn * 10000 + mn * 100 + dn))
      else none
    | _, _, _ => none
  | _ => none

/-- Effect of `pd.to_datetime` on one cell: NaN becomes NaT (still missing),
a number is interpreted as a timestamp, an already-parsed date stays, and a
string must parse. -/
def parseDateCell : Cell → Option Cell
  | Cell.NA => some Cell.NA
  | Cell.num v => some (Cell.date v)
  | Cell.date v => some (Cell.date v)
  | Cell.str s => (tryParseDate s).map Cell.date

/-- Effect of `pd.to_datetime` on a whole column; `none` when any cell fails
to parse (the whole call raises). -/
def parseCells : List Cell → Option (List Cell)
  | [] => some []
  | c :: cs =>
    match parseDateCell c, parseCells cs with
    | some c2, some cs2 => some (c2 :: cs2)
    | _, _ => none

/-- Write the parsed cells back into every column named `date`, setting its
dtype to `datetime` (the assignment `df['date'] = pd.to_datetime(df['date'])`). -/
def setDateCol (newCells : List Cell) (c : Column) : Column :=
  if c.name = "date" then Column.mk c.name DType.datetime newCells else c

/-- Line 7 of `preprocessing.py`: `df['date'] = pd.to_datetime(df['date'])`.
A missing `date` column raises `KeyError` (`SchemaError`); an unparseable
date raises out of `to_datetime` (`ParseError`). -/
def parseDates (df : DataFrame) : Except Err DataFrame :=
  match getCol df "date" with
  | none => Except.error Err.SchemaError
  | some c =>
    match parseCells c.cells with
    | none => Except.error Err.ParseError
    | some newCells => Except.ok (DataFrame.mk (df.cols.map (setDateCol newCells)))

/-- The boolean `df['iso_code'].str.len() == 3` for one cell: true exactly
for strings of length 3; `NaN` and non-string cells give `NaN` under `.str`,
and `NaN == 3` is false. -/
def is3 : Cell → Bool
  | Cell.str s => s.length == 3
  | _ => false

/-- Boolean-mask row selection on one column's cells. -/
def applyMask : List Bool → List Cell → List Cell
  | [], _ => []
  | _, [] => []
  | b :: bs, c :: cs => if b then c :: applyMask bs cs else applyMask bs cs

/-- Apply the row mask to a column (dtype is preserved by boolean indexing). -/
def maskCol (mask : List Bool) (c : Column) : Column :=
  Column.mk c.name c.dtype (applyMask mask c.cells)

/-- Line 10 of `preprocessing.py`: `df = df[df['iso_code'].str.len() == 3]`.
A missing `iso_code` column raises `KeyError`; the `.str` accessor raises
`AttributeError` unless the column is `object`-dtyped. -/
def filterCountries (df : DataFrame) : Except Err DataFrame :=
  match getCol df "iso_code" with
  | none => Except.error Err.SchemaError
  | some c =>
    if c.dtype = DType.object then
      Except.ok (DataFrame.mk (df.cols.map (maskCol (c.cells.map is3))))
    else Except.error Err.AttributeError

/-- The fixed list `cols_to_drop` of lines 13-14. -/
def cols_to_drop : List String :=
  ["tests_units", "excess_mortality_cumulative", "excess_mortality",
   "excess_mortality_cumulative_absolute", "excess_mortality_cumulative_per_million"]

/-- Line 15: `df.drop(columns=[col for col in cols_to_drop if col in df.columns])`,
which never raises because only present columns are dropped. -/
def dropLowValue (df : DataFrame) : DataFrame :=
  DataFrame.mk (df.cols.filter (fun c => !(cols_to_drop.contains c.name)))

/-- `fillna(0)` on one cell. -/
def fillCell : Cell → Cell
  | Cell.NA => Cell.num 0
  | c => c

/-- `fillna(0)` on a column, applied only when `select_dtypes` picked it
(numeric dtype). -/
def fillCol (c : Column) : Column :=
  if c.dtype = DType.numeric then Column.mk c.name c.dtype (c.cells.map fillCell) else c

/-- Lines 18-19: `num_cols = df.select_dtypes(include=['float64','int64']).columns;
df[num_cols] = df[num_cols].fillna(0)`. -/
def fillNumericCols (df : DataFrame) : DataFrame :=
  DataFrame.mk (df.cols.map fillCol)

/-- Element-wise subtraction of cells as pandas performs it: numbers
subtract, a missing operand propagates (NaN arithmetic), and a string or
datetime operand raises `TypeError`. -/
def cellSub : Cell → Cell → Except Err Cell
  | Cell.num a, Cell.num b => Except.ok (Cell.num (a - b))
  | Cell.num _, Cell.NA => Except.ok Cell.NA
  | Cell.NA, Cell.num _ => Except.ok Cell.NA
  | Cell.NA, Cell.NA => Except.ok Cell.NA
  | _, _ => Except.error Err.TypeError

/-- Element-wise subtraction of two columns' cells. -/
def subCells : List Cell → List Cell → Except Err (List Cell)
  | [], [] => Except.ok []
  | a :: as2, b :: bs2 =>
    match cellSub a b with
    | Except.error e => Except.error e
    | Except.ok c =>
      match subCells as2 bs2 with
      | Except.error e => Except.error e
      | Except.ok cs => Except.ok (c :: cs)
  | _, _ => Except.error Err.TypeError

/-- Subtraction of the scalar `0` (the default of `df.get('total_recovered', 0)`)
from a column's cells. -/
def subScalarZero : List Cell → Except Err (List Cell)
  | [] => Except.ok []
  | a :: rest =>
    match cellSub a (Cell.num 0) with
    | Except.error e => Except.error e
    | Except.ok c =>
      match subScalarZero rest with
      | Except.error e => Except.error e
      | Except.ok cs => Except.ok (c :: cs)

/-- Dtype of a pandas arithmetic result: `object` if either operand column is
`object`-dtyped, numeric otherwise (datetime operands raise before this). -/
def subDtype (a b : DType) : DType :=
  if a = DType.object ∨ b = DType.object then DType.object else DType.numeric

/-- Lines 22-23: derive `active_cases` only when the column is absent,
as `df['total_cases'] - df['total_deaths'] - df.get('total_recovered', 0)`.
Missing `total_cases`/`total_deaths` raise `KeyError` in that order;
subtraction involving a datetime column or string cells raises `TypeError`. -/
def deriveActive (df : DataFrame) : Except Err DataFrame :=
  if "active_cases" ∈ colNames df then Except.ok df
  else
    match getCol df "total_cases" with
    | none => Except.error Err.SchemaError
    | some ctc =>
      match getCol df "total_deaths" with
      | none => Except.error Err.SchemaError
      | some ctd =>
        if ctc.dtype = DType.datetime ∨ ctd.dtype = DType.datetime then
          Except.error Err.TypeError
        else
          match subCells ctc.cells ctd.cells with
          | Except.error e => Except.error e
          | Except.ok s1 =>
            match getCol df "total_recovered" with
            | some ctr =>
              if ctr.dtype = DType.datetime then Except.error Err.TypeError
              else
                match subCells s1 ctr.cells with
                | Except.error e => Except.error e
                | Except.ok s2 =>
                  Except.ok (DataFrame.mk (df.cols ++
                    [Column.mk "active_cases" (subDtype (subDtype ctc.dtype ctd.dtype) ctr.dtype) s2]))
            | none =>
              match subScalarZero s1 with
              | Except.error e => Except.error e
              | Except.ok s2 =>
                Except.ok (DataFrame.mk (df.cols ++
                  [Column.mk "active_cases" (subDtype ctc.dtype ctd.dtype) s2]))

/-- Embedding of `load_and_clean_data` from `src/preprocessing.py` (the
spec's `prepare`), starting from the frame `pd.read_csv` produced: parse
dates, keep 3-letter `iso_code` rows, drop the low-value columns, zero-fill
the numeric columns, and derive `active_cases` when absent.  Each step's
exception aborts the whole call. -/
def load_and_clean_data (df : DataFrame) : Except Err DataFrame :=
  match parseDates df with
  | Except.error e => Except.error e
  | Except.ok d1 =>
    match filterCountries d1 with
    | Except.error e => Except.error e
    | Except.ok d2 => deriveActive (fillNumericCols (dropLowValue d2))

/-- The country-filter row mask of a frame: `is3` of each `iso_code` cell. -/
def theMask (df : DataFrame) : List Bool :=
  match getCol df "iso_code" with
  | some c => c.cells.map is3
  | none => []

/-- Number of rows of a frame (length of its first column). -/
def nrows (df : DataFrame) : Nat :=
  match df.cols with
  | [] => 0
  | c :: _ => c.cells.length

/-- Rectangularity: all columns have the same length, as in any real
DataFrame. -/
def rect (df : DataFrame) : Prop :=
  ∀ c ∈ df.cols, c.cells.length = nrows df

instance (df : DataFrame) : Decidable (rect df) := by
  unfold rect; infer_instance

-- The end-to-end scenario frame of spec section 8 and its cleaned table.

def dfUSA : DataFrame :=
  DataFrame.mk
    [Column.mk "iso_code" DType.object [Cell.str "USA", Cell.str "OWID_WRL"],
     Column.mk "date" DType.object [Cell.str "2021-03-01", Cell.str "2021-03-01"],
     Column.mk "total_cases" DType.numeric [Cell.num 100, Cell.num 10000],
     Column.mk "total_deaths" DType.numeric [Cell.num 2, Cell.num 200]]

def tUSA : DataFrame :=
  DataFrame.mk
    [Column.mk "iso_code" DType.object [Cell.str "USA"],
     Column.mk "date" DType.datetime [Cell.date 20210301],
     Column.mk "total_cases" DType.numeric [Cell.num 100],
     Column.mk "total_deaths" DType.numeric [Cell.num 2],
     Column.mk "active_cases" DType.numeric [Cell.num 98]]

instance {ε α : Type} [DecidableEq ε] [DecidableEq α] : DecidableEq (Except ε α) :=
  fun a b =>
    match a, b with
    | Except.ok x, Except.ok y =>
      if h : x = y then Decidable.isTrue (by rw [h])
      else Decidable.isFalse (fun hh => h (Except.ok.inj hh))
    | Except.ok _, Except.error _ => Decidable.isFalse (fun hh => Except.noConfusion hh)
    | Except.error _, Except.ok _ => Decidable.isFalse (fun hh => Except.noConfusion hh)
    | Except.error x, Except.error y =>
      if h : x = y then Decidable.isTrue (by rw [h])
      else Decidable.isFalse (fun hh => h (Except.error.inj hh))

/-! Concrete frames used by witnesses and counterexamples. -/

def dfNA : DataFrame :=
  DataFrame.mk
    [Column.mk "iso_code" DType.object [Cell.NA, Cell.str "FRA"],
     Column.mk "date" DType.object [Cell.str "2021-03-01", Cell.str "2021-03-02"],
     Column.mk "total_cases" DType.numeric [Cell.num 5, Cell.num 7],
     Column.mk "total_deaths" DType.numeric [Cell.num 1, Cell.NA]]

def tNA : DataFrame :=
  DataFrame.mk
    [Column.mk "iso_code" DType.object [Cell.str "FRA"],
     Column.mk "date" DType.datetime [Cell.date 20210302],
     Column.mk "total_cases" DType.numeric [Cell.num 7],
     Column.mk "total_deaths" DType.numeric [Cell.num 0],
     Column.mk "active_cases" DType.numeric [Cell.num 7]]

def dfBad : DataFrame :=
  DataFrame.mk
    [Column.mk "iso_code" DType.object [Cell.str "USA"],
     Column.mk "date" DType.object [Cell.str "not-a-date"],
     Column.mk "total_cases" DType.numeric [Cell.num 1],
     Column.mk "total_deaths" DType.numeric [Cell.num 0]]

def dfAct : DataFrame :=
  DataFrame.mk
    [Column.mk "iso_code" DType.object [Cell.str "USA", Cell.str "FRA", Cell.str "Asia"],
     Column.mk "date" DType.object
       [Cell.str "2021-03-01", Cell.str "2021-03-02", Cell.str "2021-03-03"],
     Column.mk "total_cases" DType.numeric [Cell.num 10, Cell.num 20, Cell.num 30],
     Column.mk "total_deaths" DType.numeric [Cell.num 1, Cell.num 2, Cell.num 3],
     Column.mk "active_cases" DType.numeric [Cell.NA, Cell.num 7, Cell.num 9]]

def tAct : DataFrame :=
  DataFrame.mk
    [Column.mk "iso_code" DType.object [Cell.str "USA", Cell.str "FRA"],
     Column.mk "date" DType.datetime [Cell.date 20210301, Cell.date 20210302],
     Column.mk "total_cases" DType.numeric [Cell.num 10, Cell.num 20],
     Column.mk "total_deaths" DType.numeric [Cell.num 1, Cell.num 2],
     Column.mk "active_cases" DType.numeric [Cell.num 0, Cell.num 7]]

def dfObj : DataFrame :=
  DataFrame.mk
    [Column.mk "iso_code" DType.object [Cell.str "Asia", Cell.str "USA"],
     Column.mk "date" DType.object [Cell.str "2021-03-01", Cell.str "2021-03-02"],
     Column.mk "total_cases" DType.object [Cell.str "abc", Cell.NA],
     Column.mk "total_deaths" DType.numeric [Cell.num 5, Cell.num 3]]

def dfNoTC : DataFrame :=
  DataFrame.mk
    [Column.mk "iso_code" DType.object [Cell.str "USA"],
     Column.mk "date" DType.object [Cell.str "2021-01-01"],
     Column.mk "active_cases" DType.numeric [Cell.num 5]]

def dfMiss : DataFrame :=
  DataFrame.mk
    [Column.mk "iso_code" DType.object [Cell.str "USA"],
     Column.mk "date" DType.object [Cell.str "2021-01-01"],
     Column.mk "total_deaths" DType.numeric [Cell.num 0]]

/-- Every cell of the `date` column (if there is one) parses. -/
def datesParse (df : DataFrame) : Prop :=
  ∀ c, getCol df "date" = some c → ∃ l, parseCells c.cells = some l

/-- The `iso_code` column (if there is one) is `object`-dtyped, so the
`.str` accessor of the country filter works. -/
def isoObject (df : DataFrame) : Prop :=
  ∀ c, getCol df "iso_code" = some c → c.dtype = DType.object

/-- Removal of one named column: the difference between a source that has
one of the droppable columns and the same source without it. -/
def removeCol (df : DataFrame) (n : String) : DataFrame :=
  DataFrame.mk (df.cols.filter (fun c => !(c.name == n)))

def dfPair : DataFrame :=
  DataFrame.mk
    [Column.mk "iso_code" DType.object [Cell.str "USA"],
     Column.mk "excess_mortality" DType.numeric [Cell.num 1]]

def dfDrop : DataFrame :=
  DataFrame.mk
    [Column.mk "iso_code" DType.object [Cell.str "USA", Cell.str "OWID_WRL"],
     Column.mk "date" DType.object [Cell.str "2021-03-01", Cell.str "2021-03-01"],
     Column.mk "total_cases" DType.numeric [Cell.num 100, Cell.num 10000],
     Column.mk "total_deaths" DType.numeric [Cell.num 2, Cell.num 200],
     Column.mk "excess_mortality" DType.numeric [Cell.num 1, Cell.NA]]

/-! Toolkit lemmas about column lookup. -/

lemma getCol_name {df : DataFrame} {n : String} {c : Column}
    (h : getCol df n = some c) : c.name = n := by
  have h2 := List.find?_some h
  simpa using h2

lemma getCol_mem {df : DataFrame} {n : String} {c : Column}
    (h : getCol df n = some c) : c ∈ df.cols :=
  List.mem_of_find?_eq_some h

lemma getCol_none_iff {df : DataFrame} {n : String} :
    getCol df n = none ↔ ¬ n ∈ colNames df := by
  unfold getCol colNames
  rw [List.find?_eq_none]
  constructor
  · intro h hmem
    rcases List.mem_map.mp hmem with ⟨c, hc, hcn⟩
    exact (h c hc) (by simp [hcn])
  · intro h c hc hcn
    refine h (List.mem_map.mpr ⟨c, hc, ?_⟩)
    simpa using hcn

lemma getCol_exists_of_mem {df : DataFrame} {n : String}
    (h : n ∈ colNames df) : ∃ c, getCol df n = some c := by
  cases hg : getCol df n with
  | none => exact absurd h (getCol_none_iff.mp hg)
  | some c => exact ⟨c, rfl⟩

lemma mem_colNames_of_getCol {df : DataFrame} {n : String} {c : Column}
    (h : getCol df n = some c) : n ∈ colNames df := by
  by_contra hn
  rw [← getCol_none_iff] at hn
  rw [h] at hn
  cases hn

lemma getCol_map_frame {l : List Column} {f : Column → Column}
    (hf : ∀ c, (f c).name = c.name) (n : String) :
    getCol (DataFrame.mk (l.map f)) n = (getCol (DataFrame.mk l) n).map f := by
  unfold getCol
  simp only [List.find?_map]
  have hp : ((fun c : Column => c.name == n) ∘ f) = (fun c : Column => c.name == n) := by
    funext c
    simp [Function.comp, hf c]
  rw [hp]

lemma colNames_map_frame {l : List Column} {f : Column → Column}
    (hf : ∀ c, (f c).name = c.name) :
    colNames (DataFrame.mk (l.map f)) = colNames (DataFrame.mk l) := by
  unfold colNames
  rw [List.map_map]
  exact List.map_congr_left (fun c _ => hf c)

lemma setDateCol_name (nc : List Cell) (c : Column) :
    (setDateCol nc c).name = c.name := by
  unfold setDateCol
  split <;> rfl

lemma maskCol_name (mask : List Bool) (c : Column) :
    (maskCol mask c).name = c.name := rfl

lemma fillCol_name (c : Column) : (fillCol c).name = c.name := by
  unfold fillCol
  split <;> rfl

lemma maskCol_dtype (mask : List Bool) (c : Column) :
    (maskCol mask c).dtype = c.dtype := rfl

lemma fillCol_dtype (c : Column) : (fillCol c).dtype = c.dtype := by
  unfold fillCol
  split <;> rfl

lemma setDateCol_of_ne {nc : List Cell} {c : Column}
    (h : ¬ c.name = "date") : setDateCol nc c = c := by
  unfold setDateCol
  simp [h]

lemma find?_name_filter_drop (l : List Column) (n : String) (h : ¬ n ∈ cols_to_drop) :
    List.find? (fun c => c.name == n) (l.filter (fun c => !(cols_to_drop.contains c.name)))
      = List.find? (fun c => c.name == n) l := by
  induction l with
  | nil => rfl
  | cons c l ih =>
    by_cases hc : c.name = n
    · have hnc : ¬ cols_to_drop.contains c.name = true := by
        rw [hc]
        simpa using h
      rw [List.filter_cons]
      simp only [hnc, Bool.not_false, if_pos]
      rw [List.find?_cons_of_pos _ (by simp [hc]), List.find?_cons_of_pos _ (by simp [hc])]
    · rw [List.filter_cons]
      by_cases hd : cols_to_drop.contains c.name = true
      · simp only [hd, Bool.not_true, if_neg, Bool.false_eq_true, not_false_eq_true]
        rw [List.find?_cons_of_neg _ (by simp [hc]), ih]
      · simp only [hd, Bool.not_false, if_pos]
        rw [List.find?_cons_of_neg _ (by simp [hc]), List.find?_cons_of_neg _ (by simp [hc]), ih]

lemma getCol_dropLowValue {df : DataFrame} {n : String} (h : ¬ n ∈ cols_to_drop) :
    getCol (dropLowValue df) n = getCol df n :=
  find?_name_filter_drop df.cols n h

lemma getCol_fill (df : DataFrame) (n : String) :
    getCol (fillNumericCols df) n = (getCol df n).map fillCol :=
  getCol_map_frame fillCol_name n

lemma getCol_append_left {l1 l2 : List Column} {n : String} {c : Column}
    (h : List.find? (fun c => c.name == n) l1 = some c) :
    getCol (DataFrame.mk (l1 ++ l2)) n = some c := by
  unfold getCol
  rw [List.find?_append, h]
  rfl

/-! Toolkit lemmas about masking, filling, parsing and subtraction. -/

lemma applyMask_map_self (p : Cell → Bool) :
    ∀ l : List Cell, applyMask (l.map p) l = l.filter p
  | [] => rfl
  | c :: cs => by
    rw [List.map_cons, List.filter_cons]
    by_cases h : p c
    · simp only [applyMask, h, if_pos]
      rw [applyMask_map_self p cs]
    · simp only [applyMask, h, Bool.false_eq_true, if_neg, not_false_eq_true]
      rw [applyMask_map_self p cs]

lemma applyMask_all_true :
    ∀ (m : List Bool) (l : List Cell), (∀ b ∈ m, b = true) → l.length = m.length →
      applyMask m l = l
  | [], [], _, _ => rfl
  | b :: bs, c :: cs, hm, hl => by
    have hb : b = true := hm b (List.mem_cons_self b bs)
    simp only [applyMask, hb, if_pos]
    rw [applyMask_all_true bs cs (fun x hx => hm x (List.mem_cons_of_mem b hx))
      (by simpa using hl)]

lemma mem_of_mem_applyMask :
    ∀ {m : List Bool} {l : List Cell} {x : Cell}, x ∈ applyMask m l → x ∈ l
  | [], l, x, h => by simp [applyMask] at h
  | b :: bs, [], x, h => by simp [applyMask] at h
  | b :: bs, c :: cs, x, h => by
    by_cases hb : b = true
    · rw [show applyMask (b :: bs) (c :: cs) = c :: applyMask bs cs by
        simp [applyMask, hb]] at h
      rcases List.mem_cons.mp h with h1 | h2
      · exact h1 ▸ List.mem_cons_self c cs
      · exact List.mem_cons_of_mem c (mem_of_mem_applyMask h2)
    · rw [show applyMask (b :: bs) (c :: cs) = applyMask bs cs by
        simp [applyMask, hb]] at h
      exact List.mem_cons_of_mem c (mem_of_mem_applyMask h)

lemma length_applyMask :
    ∀ (m : List Bool) (l : List Cell), l.length = m.length →
      (applyMask m l).length = m.countP (fun b => b)
  | [], [], _ => rfl
  | b :: bs, c :: cs, h => by
    have hl : cs.length = bs.length := by simpa using h
    by_cases hb : b = true
    · rw [show applyMask (b :: bs) (c :: cs) = c :: applyMask bs cs by
        simp [applyMask, hb]]
      rw [List.length_cons, length_applyMask bs cs hl, List.countP_cons]
      simp [hb]
    · rw [show applyMask (b :: bs) (c :: cs) = applyMask bs cs by
        simp [applyMask, hb]]
      rw [length_applyMask bs cs hl, List.countP_cons]
      simp [hb]

lemma applyMask_map_comm (f : Cell → Cell) :
    ∀ (m : List Bool) (l : List Cell), applyMask m (l.map f) = (applyMask m l).map f
  | [], l => by simp [applyMask]
  | b :: bs, [] => by simp [applyMask]
  | b :: bs, c :: cs => by
    by_cases hb : b = true
    · simp only [List.map_cons, applyMask, hb, if_pos]
      rw [applyMask_map_comm f bs cs]
    · simp only [List.map_cons, applyMask, hb, Bool.false_eq_true, if_neg, not_false_eq_true]
      rw [applyMask_map_comm f bs cs]

lemma fillCell_ne_NA (c : Cell) : ¬ fillCell c = Cell.NA := by
  cases c <;> simp [fillCell]

lemma NA_not_mem_map_fillCell (l : List Cell) : ¬ Cell.NA ∈ l.map fillCell := by
  intro h
  rcases List.mem_map.mp h with ⟨c, _, hc⟩
  exact fillCell_ne_NA c hc

lemma map_fillCell_of_no_NA {l : List Cell} (h : ¬ Cell.NA ∈ l) : l.map fillCell = l := by
  have : ∀ c ∈ l, fillCell c = c := by
    intro c hc
    cases c with
    | NA => exact absurd hc h
    | num v => rfl
    | str s => rfl
    | date d => rfl
  rw [List.map_congr_left this, List.map_id']

lemma parseDateCell_out {c c2 : Cell} (h : parseDateCell c = some c2) :
    parseDateCell c2 = some c2 := by
  cases c with
  | NA => cases h; rfl
  | num v => cases h; rfl
  | date v => cases h; rfl
  | str s =>
    simp only [parseDateCell] at h
    cases hp : tryParseDate s with
    | none => rw [hp] at h; cases h
    | some d => rw [hp] at h; cases h; rfl

lemma parseCells_out : ∀ {l l2 : List Cell}, parseCells l = some l2 →
    ∀ x ∈ l2, parseDateCell x = some x
  | [], l2, h => by cases h; intro x hx; cases hx
  | c :: cs, l2, h => by
    unfold parseCells at h
    cases hc : parseDateCell c with
    | none => rw [hc] at h; cases h
    | some c2 =>
      rw [hc] at h
      cases hcs : parseCells cs with
      | none => rw [hcs] at h; cases h
      | some cs2 =>
        rw [hcs] at h
        cases h
        intro x hx
        rcases List.mem_cons.mp hx with h1 | h2
        · exact h1 ▸ parseDateCell_out hc
        · exact parseCells_out hcs x h2

lemma parseCells_id_of_fixed : ∀ {l : List Cell},
    (∀ x ∈ l, parseDateCell x = some x) → parseCells l = some l
  | [], _ => rfl
  | c :: cs, h => by
    unfold parseCells
    rw [h c (List.mem_cons_self c cs),
      parseCells_id_of_fixed (fun x hx => h x (List.mem_cons_of_mem c hx))]

lemma parseCells_none_of_mem {l : List Cell} {a : Cell}
    (ha : a ∈ l) (h : parseDateCell a = none) : parseCells l = none := by
  induction l with
  | nil => cases ha
  | cons c cs ih =>
    unfold parseCells
    rcases List.mem_cons.mp ha with h1 | h2
    · subst h1
      rw [h]
    · rw [ih h2]
      first
      | rfl
      | cases parseDateCell c <;> rfl

lemma parseCells_length : ∀ {l l2 : List Cell}, parseCells l = some l2 →
    l2.length = l.length
  | [], l2, h => by cases h; rfl
  | c :: cs, l2, h => by
    unfold parseCells at h
    cases hc : parseDateCell c with
    | none => rw [hc] at h; cases h
    | some c2 =>
      rw [hc] at h
      cases hcs : parseCells cs with
      | none => rw [hcs] at h; cases h
      | some cs2 =>
        rw [hcs] at h
        cases h
        simp [parseCells_length hcs]

lemma subCells_length : ∀ {as bs cs : List Cell}, subCells as bs = Except.ok cs →
    cs.length = as.length ∧ as.length = bs.length
  | [], [], cs, h => by cases h; exact ⟨rfl, rfl⟩
  | [], b :: bs, cs, h => by cases h
  | a :: as2, [], cs, h => by cases h
  | a :: as2, b :: bs2, cs, h => by
    unfold subCells at h
    cases hc : cellSub a b with
    | error e => rw [hc] at h; cases h
    | ok c =>
      rw [hc] at h
      cases hcs : subCells as2 bs2 with
      | error e => rw [hcs] at h; cases h
      | ok cs2 =>
        rw [hcs] at h
        cases h
        have := subCells_length hcs
        simp [this.1, this.2]

lemma subCells_get? : ∀ {as bs cs : List Cell}, subCells as bs = Except.ok cs →
    ∀ (i : Nat) (c : Cell), cs.get? i = some c →
      ∃ a b, as.get? i = some a ∧ bs.get? i = some b ∧ cellSub a b = Except.ok c
  | [], [], cs, h => by
    cases h
    intro i c hc
    simp at hc
  | [], b :: bs, cs, h => by cases h
  | a :: as2, [], cs, h => by cases h
  | a :: as2, b :: bs2, cs, h => by
    unfold subCells at h
    cases hc : cellSub a b with
    | error e => rw [hc] at h; cases h
    | ok c0 =>
      rw [hc] at h
      cases hcs : subCells as2 bs2 with
      | error e => rw [hcs] at h; cases h
      | ok cs2 =>
        rw [hcs] at h
        cases h
        intro i c hget
        cases i with
        | zero => cases hget; exact ⟨a, b, rfl, rfl, hc⟩
        | succ j => exact subCells_get? hcs j c hget

lemma subCells_mem {as bs cs : List Cell} (h : subCells as bs = Except.ok cs)
    {c : Cell} (hc : c ∈ cs) :
    ∃ a b, a ∈ as ∧ b ∈ bs ∧ cellSub a b = Except.ok c := by
  rcases List.mem_iff_get.mp hc with ⟨i, hi⟩
  have hget : cs.get? i = some c := by
    rw [List.get?_eq_get i.2, hi]
  rcases subCells_get? h i c hget with ⟨a, b, ha, hb, hs⟩
  exact ⟨a, b, List.get?_mem ha, List.get?_mem hb, hs⟩

lemma subScalarZero_length : ∀ {as cs : List Cell}, subScalarZero as = Except.ok cs →
    cs.length = as.length
  | [], cs, h => by cases h; rfl
  | a :: as2, cs, h => by
    unfold subScalarZero at h
    cases hc : cellSub a (Cell.num 0) with
    | error e => rw [hc] at h; cases h
    | ok c =>
      rw [hc] at h
      cases hcs : subScalarZero as2 with
      | error e => rw [hcs] at h; cases h
      | ok cs2 =>
        rw [hcs] at h
        cases h
        simp [subScalarZero_length hcs]

lemma subScalarZero_get? : ∀ {as cs : List Cell}, subScalarZero as = Except.ok cs →
    ∀ (i : Nat) (c : Cell), cs.get? i = some c →
      ∃ a, as.get? i = some a ∧ cellSub a (Cell.num 0) = Except.ok c
  | [], cs, h => by
    cases h
    intro i c hc
    simp at hc
  | a :: as2, cs, h => by
    unfold subScalarZero at h
    cases hc : cellSub a (Cell.num 0) with
    | error e => rw [hc] at h; cases h
    | ok c0 =>
      rw [hc] at h
      cases hcs : subScalarZero as2 with
      | error e => rw [hcs] at h; cases h
      | ok cs2 =>
        rw [hcs] at h
        cases h
        intro i c hget
        cases i with
        | zero => cases hget; exact ⟨a, rfl, hc⟩
        | succ j => exact subScalarZero_get? hcs j c hget

lemma subScalarZero_mem {as cs : List Cell} (h : subScalarZero as = Except.ok cs)
    {c : Cell} (hc : c ∈ cs) :
    ∃ a, a ∈ as ∧ cellSub a (Cell.num 0) = Except.ok c := by
  rcases List.mem_iff_get.mp hc with ⟨i, hi⟩
  have hget : cs.get? i = some c := by
    rw [List.get?_eq_get i.2, hi]
  rcases subScalarZero_get? h i c hget with ⟨a, ha, hs⟩
  exact ⟨a, List.get?_mem ha, hs⟩

lemma cellSub_num {a b c : Cell} (ha : ¬ a = Cell.NA) (hb : ¬ b = Cell.NA)
    (h : cellSub a b = Except.ok c) : ∃ v, c = Cell.num v := by
  cases a <;> cases b <;> simp [cellSub] at h ⊢ <;> first
    | exact absurd rfl ha
    | exact absurd rfl hb
    | exact ⟨_, h.symm⟩

/-! Inversion lemmas for the pipeline steps. -/

lemma prepare_inversion {df t : DataFrame} (h : load_and_clean_data df = Except.ok t) :
    ∃ d1 d2, parseDates df = Except.ok d1 ∧ filterCountries d1 = Except.ok d2 ∧
      deriveActive (fillNumericCols (dropLowValue d2)) = Except.ok t := by
  unfold load_and_clean_data at h
  cases hp : parseDates df with
  | error e => simp only [hp] at h; cases h
  | ok d1 =>
    simp only [hp] at h
    cases hf : filterCountries d1 with
    | error e => simp only [hf] at h; cases h
    | ok d2 =>
      simp only [hf] at h
      exact ⟨d1, d2, rfl, hf, h⟩

lemma parseDates_ok {df d1 : DataFrame} (h : parseDates df = Except.ok d1) :
    ∃ c nc, getCol df "date" = some c ∧ parseCells c.cells = some nc ∧
      d1 = DataFrame.mk (df.cols.map (setDateCol nc)) := by
  unfold parseDates at h
  cases hg : getCol df "date" with
  | none => simp only [hg] at h; cases h
  | some c =>
    simp only [hg] at h
    cases hp : parseCells c.cells with
    | none => simp only [hp] at h; cases h
    | some nc =>
      simp only [hp] at h
      cases h
      exact ⟨c, nc, rfl, hp, rfl⟩

lemma filterCountries_ok {df d2 : DataFrame} (h : filterCountries df = Except.ok d2) :
    ∃ c, getCol df "iso_code" = some c ∧ c.dtype = DType.object ∧
      d2 = DataFrame.mk (df.cols.map (maskCol (c.cells.map is3))) := by
  unfold filterCountries at h
  cases hg : getCol df "iso_code" with
  | none => simp only [hg] at h; cases h
  | some c =>
    simp only [hg] at h
    by_cases hd : c.dtype = DType.object
    · rw [if_pos hd] at h
      cases h
      exact ⟨c, rfl, hd, rfl⟩
    · rw [if_neg hd] at h
      cases h

lemma deriveActive_ok_cases {df t : DataFrame} (h : deriveActive df = Except.ok t) :
    ("active_cases" ∈ colNames df ∧ t = df) ∨
    (¬ "active_cases" ∈ colNames df ∧ ∃ ctc ctd s1 s2 dt,
      getCol df "total_cases" = some ctc ∧ getCol df "total_deaths" = some ctd ∧
      ¬ ctc.dtype = DType.datetime ∧ ¬ ctd.dtype = DType.datetime ∧
      subCells ctc.cells ctd.cells = Except.ok s1 ∧
      ((∃ ctr, getCol df "total_recovered" = some ctr ∧ ¬ ctr.dtype = DType.datetime ∧
          subCells s1 ctr.cells = Except.ok s2 ∧
          dt = subDtype (subDtype ctc.dtype ctd.dtype) ctr.dtype) ∨
       (getCol df "total_recovered" = none ∧ subScalarZero s1 = Except.ok s2 ∧
          dt = subDtype ctc.dtype ctd.dtype)) ∧
      t = DataFrame.mk (df.cols ++ [Column.mk "active_cases" dt s2])) := by
  unfold deriveActive at h
  by_cases hA : "active_cases" ∈ colNames df
  · rw [if_pos hA] at h
    exact Or.inl ⟨hA, (Except.ok.inj h).symm⟩
  · rw [if_neg hA] at h
    refine Or.inr ⟨hA, ?_⟩
    cases htc : getCol df "total_cases" with
    | none => simp only [htc] at h; cases h
    | some ctc =>
      simp only [htc] at h
      cases htd : getCol df "total_deaths" with
      | none => simp only [htd] at h; cases h
      | some ctd =>
        simp only [htd] at h
        by_cases hdt : ctc.dtype = DType.datetime ∨ ctd.dtype = DType.datetime
        · rw [if_pos hdt] at h; cases h
        · rw [if_neg hdt] at h
          push_neg at hdt
          cases hs1 : subCells ctc.cells ctd.cells with
          | error e => simp only [hs1] at h; cases h
          | ok s1 =>
            simp only [hs1] at h
            cases htr : getCol df "total_recovered" with
            | some ctr =>
              simp only [htr] at h
              by_cases hrdt : ctr.dtype = DType.datetime
              · rw [if_pos hrdt] at h; cases h
              · rw [if_neg hrdt] at h
                cases hs2 : subCells s1 ctr.cells with
                | error e => simp only [hs2] at h; cases h
                | ok s2 =>
                  simp only [hs2] at h
                  cases h
                  exact ⟨ctc, ctd, s1, s2, _, rfl, rfl, hdt.1, hdt.2, hs1,
                    Or.inl ⟨ctr, rfl, hrdt, hs2, rfl⟩, rfl⟩
            | none =>
              simp only [htr] at h
              cases hs2 : subScalarZero s1 with
              | error e => simp only [hs2] at h; cases h
              | ok s2 =>
                simp only [hs2] at h
                cases h
                exact ⟨ctc, ctd, s1, s2, _, rfl, rfl, hdt.1, hdt.2, hs1,
                  Or.inr ⟨rfl, hs2, rfl⟩, rfl⟩

/-! Column-by-column structure of the pipeline output. -/

lemma getCol_map_cols {df : DataFrame} {f : Column → Column}
    (hf : ∀ c, (f c).name = c.name) (n : String) :
    getCol (DataFrame.mk (df.cols.map f)) n = (getCol df n).map f :=
  getCol_map_frame hf n

lemma colNames_map_cols {df : DataFrame} {f : Column → Column}
    (hf : ∀ c, (f c).name = c.name) :
    colNames (DataFrame.mk (df.cols.map f)) = colNames df :=
  colNames_map_frame hf

lemma getCol_parseDates_of_ne {df d1 : DataFrame} {n : String}
    (hp : parseDates df = Except.ok d1) (hn : ¬ n = "date") :
    getCol d1 n = getCol df n := by
  rcases parseDates_ok hp with ⟨cd, nc, hcd, hnc, hd1⟩
  subst hd1
  rw [getCol_map_cols (setDateCol_name nc) n]
  cases hg : getCol df n with
  | none => rfl
  | some c =>
    have hcn : setDateCol nc c = c := setDateCol_of_ne (by rw [getCol_name hg]; exact hn)
    simp [hcn]

lemma getCol_filterCountries {d1 d2 : DataFrame} {ciso : Column}
    (hf : filterCountries d1 = Except.ok d2)
    (hciso : getCol d1 "iso_code" = some ciso) (n : String) :
    getCol d2 n = (getCol d1 n).map (maskCol (ciso.cells.map is3)) := by
  rcases filterCountries_ok hf with ⟨c, hc, hobj, hd2⟩
  rw [hc] at hciso
  cases hciso
  subst hd2
  exact getCol_map_cols (maskCol_name (List.map is3 ciso.cells)) n

lemma theMask_eq_of_parse {df d1 : DataFrame} {ciso : Column}
    (hp : parseDates df = Except.ok d1)
    (hciso : getCol d1 "iso_code" = some ciso) :
    theMask df = ciso.cells.map is3 := by
  have hne : ¬ "iso_code" = "date" := by decide
  rw [getCol_parseDates_of_ne hp hne] at hciso
  unfold theMask
  rw [hciso]

lemma getCol_d4 {df d1 d2 : DataFrame} {ciso : Column} {n : String} {c : Column}
    (hp : parseDates df = Except.ok d1) (hf : filterCountries d1 = Except.ok d2)
    (hciso : getCol d1 "iso_code" = some ciso)
    (hnd : ¬ n = "date") (hdrop : ¬ n ∈ cols_to_drop)
    (hc : getCol df n = some c) :
    getCol (fillNumericCols (dropLowValue d2)) n
      = some (fillCol (maskCol (ciso.cells.map is3) c)) := by
  have h1 : getCol d1 n = some c := by
    rw [getCol_parseDates_of_ne hp hnd]
    exact hc
  have h2 : getCol d2 n = some (maskCol (ciso.cells.map is3) c) := by
    rw [getCol_filterCountries hf hciso n, h1]
    rfl
  have h3 : getCol (dropLowValue d2) n = some (maskCol (ciso.cells.map is3) c) := by
    rw [getCol_dropLowValue hdrop]
    exact h2
  rw [getCol_fill, h3]
  rfl

lemma prepare_col_cells {df t : DataFrame} (hok : load_and_clean_data df = Except.ok t)
    {n : String} (hnd : ¬ n = "date") (hdrop : ¬ n ∈ cols_to_drop) {c : Column}
    (hc : getCol df n = some c) :
    ∃ c2, getCol t n = some c2 ∧ c2.dtype = c.dtype ∧
      c2.cells = applyMask (theMask df)
        (if c.dtype = DType.numeric then c.cells.map fillCell else c.cells) := by
  rcases prepare_inversion hok with ⟨d1, d2, hp, hf, hd⟩
  rcases filterCountries_ok hf with ⟨ciso, hciso, hobj, hd2⟩
  have hmask : theMask df = ciso.cells.map is3 := theMask_eq_of_parse hp hciso
  have h4 : getCol (fillNumericCols (dropLowValue d2)) n
      = some (fillCol (maskCol (ciso.cells.map is3) c)) :=
    getCol_d4 hp hf hciso hnd hdrop hc
  have hget : getCol t n = some (fillCol (maskCol (ciso.cells.map is3) c)) := by
    rcases deriveActive_ok_cases hd with ⟨hA, ht⟩ | ⟨hA, ctc, ctd, s1, s2, dt, htc, htd, _, _, hs1, hrest, ht⟩
    · rw [ht]
      exact h4
    · rw [ht]
      exact getCol_append_left h4
  refine ⟨fillCol (maskCol (ciso.cells.map is3) c), hget, ?_, ?_⟩
  · rw [fillCol_dtype, maskCol_dtype]
  · rw [hmask]
    unfold fillCol maskCol
    by_cases hnum : c.dtype = DType.numeric
    · simp only [hnum, if_pos]
      exact (applyMask_map_comm fillCell (ciso.cells.map is3) c.cells).symm
    · simp only [hnum, if_neg, not_false_eq_true]

lemma cellSub_ok_NA {a b : Cell} (h : cellSub a b = Except.ok Cell.NA) :
    a = Cell.NA ∨ b = Cell.NA := by
  cases a <;> cases b <;> simp [cellSub] at h ⊢

lemma subDtype_numeric {a b : DType} (h : subDtype a b = DType.numeric) :
    ¬ a = DType.object ∧ ¬ b = DType.object := by
  unfold subDtype at h
  by_cases ho : a = DType.object ∨ b = DType.object
  · rw [if_pos ho] at h
    cases h
  · push_neg at ho
    exact ho

lemma dtype_numeric_of {a : DType} (h1 : ¬ a = DType.object)
    (h2 : ¬ a = DType.datetime) : a = DType.numeric := by
  cases a
  · rfl
  · exact absurd rfl h1
  · exact absurd rfl h2

lemma fill_no_NA {df0 : DataFrame} :
    ∀ c ∈ (fillNumericCols df0).cols, c.dtype = DType.numeric → ¬ Cell.NA ∈ c.cells := by
  intro c hc hnum
  rcases List.mem_map.mp hc with ⟨c0, _, hc0⟩
  subst hc0
  unfold fillCol at hnum ⊢
  by_cases h0 : c0.dtype = DType.numeric
  · simp only [h0, if_pos]
    exact NA_not_mem_map_fillCell c0.cells
  · rw [if_neg h0] at hnum
    exact absurd hnum h0

lemma no_NA_subCells {as bs cs : List Cell} (ha : ¬ Cell.NA ∈ as) (hb : ¬ Cell.NA ∈ bs)
    (h : subCells as bs = Except.ok cs) : ¬ Cell.NA ∈ cs := by
  intro hmem
  rcases subCells_mem h hmem with ⟨a, b, hma, hmb, hs⟩
  rcases cellSub_ok_NA hs with h1 | h1
  · exact ha (h1 ▸ hma)
  · exact hb (h1 ▸ hmb)

lemma no_NA_subScalarZero {as cs : List Cell} (ha : ¬ Cell.NA ∈ as)
    (h : subScalarZero as = Except.ok cs) : ¬ Cell.NA ∈ cs := by
  intro hmem
  rcases subScalarZero_mem h hmem with ⟨a, hma, hs⟩
  rcases cellSub_ok_NA hs with h1 | h1
  · exact ha (h1 ▸ hma)
  · cases h1

lemma prepare_numeric_no_NA {df t : DataFrame}
    (hok : load_and_clean_data df = Except.ok t) :
    ∀ c ∈ t.cols, c.dtype = DType.numeric → ¬ Cell.NA ∈ c.cells := by
  rcases prepare_inversion hok with ⟨d1, d2, hp, hf, hd⟩
  rcases deriveActive_ok_cases hd with ⟨hA, ht⟩ | ⟨hA, ctc, ctd, s1, s2, dt, htc, htd, hdt1, hdt2, hs1, hrest, ht⟩
  · rw [ht]
    exact fill_no_NA
  · rw [ht]
    intro c hc hnum
    rcases List.mem_append.mp hc with hleft | hright
    · exact fill_no_NA c hleft hnum
    · have hceq : c = Column.mk "active_cases" dt s2 := List.mem_singleton.mp hright
      subst hceq
      have htcmem := getCol_mem htc
      have htdmem := getCol_mem htd
      rcases hrest with ⟨ctr, htr, hrdt, hs2, hdteq⟩ | ⟨htr, hs2, hdteq⟩
      · have hdt' : dt = DType.numeric := hnum
        rw [hdteq] at hdt'
        rcases subDtype_numeric hdt' with ⟨hio, hro⟩
        rcases subDtype_numeric (dtype_numeric_of hio (by
          intro hcontra
          unfold subDtype at hcontra
          by_cases hx : ctc.dtype = DType.object ∨ ctd.dtype = DType.object
          · rw [if_pos hx] at hcontra
            cases hcontra
          · rw [if_neg hx] at hcontra
            cases hcontra)) with ⟨hto, hdo⟩
        have htcn := dtype_numeric_of hto hdt1
        have htdn := dtype_numeric_of hdo hdt2
        have hctrn := dtype_numeric_of hro hrdt
        have hna1 := no_NA_subCells (fill_no_NA ctc htcmem htcn)
          (fill_no_NA ctd htdmem htdn) hs1
        have htrmem := getCol_mem htr
        exact no_NA_subCells hna1 (fill_no_NA ctr htrmem hctrn) hs2
      · have hdt' : dt = DType.numeric := hnum
        rw [hdteq] at hdt'
        rcases subDtype_numeric hdt' with ⟨hto, hdo⟩
        have htcn := dtype_numeric_of hto hdt1
        have htdn := dtype_numeric_of hdo hdt2
        have hna1 := no_NA_subCells (fill_no_NA ctc htcmem htcn)
          (fill_no_NA ctd htdmem htdn) hs1
        exact no_NA_subScalarZero hna1 hs2

/-! Column-name bookkeeping across the pipeline. -/

lemma map_name_filter_drop (l : List Column) :
    (l.filter (fun c => !(cols_to_drop.contains c.name))).map Column.name
      = (l.map Column.name).filter (fun m => !(cols_to_drop.contains m)) := by
  induction l with
  | nil => rfl
  | cons c cs ih =>
    by_cases h : c.name ∈ cols_to_drop <;> simpa [List.filter_cons, h] using ih

lemma colNames_dropLowValue (df : DataFrame) :
    colNames (dropLowValue df)
      = (colNames df).filter (fun m => !(cols_to_drop.contains m)) :=
  map_name_filter_drop df.cols

lemma colNames_fill (df : DataFrame) : colNames (fillNumericCols df) = colNames df :=
  colNames_map_cols fillCol_name

lemma colNames_parseDates {df d1 : DataFrame} (hp : parseDates df = Except.ok d1) :
    colNames d1 = colNames df := by
  rcases parseDates_ok hp with ⟨cd, nc, _, _, hd1⟩
  subst hd1
  exact colNames_map_cols (setDateCol_name nc)

lemma colNames_filterCountries {d1 d2 : DataFrame} (hf : filterCountries d1 = Except.ok d2) :
    colNames d2 = colNames d1 := by
  rcases filterCountries_ok hf with ⟨c, _, _, hd2⟩
  subst hd2
  exact colNames_map_cols (maskCol_name (List.map is3 c.cells))

lemma colNames_d4 {df d1 d2 : DataFrame}
    (hp : parseDates df = Except.ok d1) (hf : filterCountries d1 = Except.ok d2) :
    colNames (fillNumericCols (dropLowValue d2))
      = (colNames df).filter (fun m => !(cols_to_drop.contains m)) := by
  rw [colNames_fill, colNames_dropLowValue, colNames_filterCountries hf,
    colNames_parseDates hp]

lemma mem_colNames_d4_iff {df d1 d2 : DataFrame} {n : String}
    (hp : parseDates df = Except.ok d1) (hf : filterCountries d1 = Except.ok d2)
    (hdrop : ¬ n ∈ cols_to_drop) :
    n ∈ colNames (fillNumericCols (dropLowValue d2)) ↔ n ∈ colNames df := by
  rw [colNames_d4 hp hf]
  simp [List.mem_filter, hdrop]

lemma getCol_append_self {l1 : List Column} {n : String} {c0 : Column}
    (hnone : List.find? (fun c => c.name == n) l1 = none) (hname : c0.name = n) :
    getCol (DataFrame.mk (l1 ++ [c0])) n = some c0 := by
  unfold getCol
  rw [List.find?_append, hnone]
  simp [List.find?, hname]

lemma is3_true {cell : Cell} (h : is3 cell = true) :
    ∃ s, cell = Cell.str s ∧ s.length = 3 := by
  cases cell <;> simp [is3] at h ⊢
  exact h

lemma prepare_iso_struct {df t : DataFrame} (hok : load_and_clean_data df = Except.ok t) :
    ∃ c c2, getCol df "iso_code" = some c ∧ getCol t "iso_code" = some c2 ∧
      c2.dtype = DType.object ∧ c2.cells = c.cells.filter is3 := by
  rcases prepare_inversion hok with ⟨d1, d2, hp, hf, hd⟩
  rcases filterCountries_ok hf with ⟨ciso, hciso, hobj, hd2⟩
  have hne : ¬ "iso_code" = "date" := by decide
  have hc : getCol df "iso_code" = some ciso := by
    rw [← getCol_parseDates_of_ne hp hne]
    exact hciso
  rcases prepare_col_cells hok hne (by decide) hc with ⟨c2, hget, hdt, hcells⟩
  refine ⟨ciso, c2, hc, hget, by rw [hdt, hobj], ?_⟩
  rw [hcells, theMask_eq_of_parse hp hciso]
  rw [if_neg (by rw [hobj]; decide)]
  exact applyMask_map_self is3 ciso.cells

/-! Claim theorems. -/

/-- C1: every row of the table returned by `load_and_clean_data` has an
`iso_code` cell that is a string of exactly 3 characters, and the output
`iso_code` column is exactly the input one filtered to such cells, so every
row whose `iso_code` length is not 3 (such as "OWID_WRL" or "Asia") is
absent from the output. -/
theorem iso_filter_correct (df t : DataFrame)
    (hok : load_and_clean_data df = Except.ok t) :
    ∃ c c2, getCol df "iso_code" = some c ∧ getCol t "iso_code" = some c2 ∧
      c2.cells = c.cells.filter is3 ∧
      ∀ cell ∈ c2.cells, ∃ s, cell = Cell.str s ∧ s.length = 3 := by
  rcases prepare_iso_struct hok with ⟨c, c2, hc, hget, _, hcells⟩
  refine ⟨c, c2, hc, hget, hcells, ?_⟩
  intro cell hcell
  rw [hcells] at hcell
  exact is3_true (List.of_mem_filter hcell)

/-- Witness for C1 at the end-to-end scenario frame of spec section 8. -/
theorem iso_filter_correct_witness :
    load_and_clean_data dfUSA = Except.ok tUSA ∧
    (∃ c c2, getCol dfUSA "iso_code" = some c ∧ getCol tUSA "iso_code" = some c2 ∧
      c2.cells = c.cells.filter is3 ∧
      ∀ cell ∈ c2.cells, ∃ s, cell = Cell.str s ∧ s.length = 3) :=
  ⟨by decide, iso_filter_correct dfUSA tUSA (by decide)⟩

/-- C9 (implicit): the `iso_code` column of the output never contains a
missing value; a row whose `iso_code` is missing fails the length-3 test of
line 10 and is discarded. -/
theorem missing_iso_dropped (df t : DataFrame)
    (hok : load_and_clean_data df = Except.ok t) :
    ∃ c2, getCol t "iso_code" = some c2 ∧ ¬ Cell.NA ∈ c2.cells := by
  rcases prepare_iso_struct hok with ⟨c, c2, _, hget, _, hcells⟩
  refine ⟨c2, hget, ?_⟩
  intro hmem
  rw [hcells] at hmem
  have h3 := List.of_mem_filter hmem
  simp [is3] at h3

/-- Witness for C9 at a frame whose first row has a missing `iso_code`. -/
theorem missing_iso_dropped_witness :
    load_and_clean_data dfNA = Except.ok tNA ∧
    (∃ c2, getCol tNA "iso_code" = some c2 ∧ ¬ Cell.NA ∈ c2.cells) :=
  ⟨by decide, missing_iso_dropped dfNA tNA (by decide)⟩

/-- C4: an unparseable date value in any row makes `load_and_clean_data`
fail with `ParseError`; no table, and in particular no partial table, is
returned. -/
theorem parse_error_aborts (df : DataFrame) (i : Nat) (s : String)
    (hcell : getCell df "date" i = some (Cell.str s))
    (hbad : tryParseDate s = none) :
    load_and_clean_data df = Except.error Err.ParseError := by
  unfold getCell at hcell
  cases hg : getCol df "date" with
  | none =>
    rw [hg] at hcell
    cases hcell
  | some c =>
    simp only [hg] at hcell
    have hmem : Cell.str s ∈ c.cells := List.get?_mem hcell
    have hnone : parseCells c.cells = none := parseCells_none_of_mem hmem (by
      simp [parseDateCell, hbad])
    unfold load_and_clean_data parseDates
    simp only [hg, hnone]

/-- Witness for C4: the frame with date "not-a-date" makes the pipeline
abort with `ParseError`. -/
theorem parse_error_aborts_witness :
    (getCell dfBad "date" 0 = some (Cell.str "not-a-date") ∧
      tryParseDate "not-a-date" = none) ∧
    load_and_clean_data dfBad = Except.error Err.ParseError :=
  ⟨⟨by decide, by decide⟩, parse_error_aborts dfBad 0 "not-a-date" (by decide) (by decide)⟩

/-- C6: when the input already has an `active_cases` column (even partially
populated), no derivation happens for any row: the output `active_cases`
column is the input one, row-filtered, affected only by the numeric
zero-fill step — never recomputed from `total_cases`, `total_deaths` and
`total_recovered`. -/
theorem active_preserved (df t : DataFrame)
    (hA : "active_cases" ∈ colNames df)
    (hok : load_and_clean_data df = Except.ok t) :
    ∃ c c2, getCol df "active_cases" = some c ∧ getCol t "active_cases" = some c2 ∧
      c2.dtype = c.dtype ∧
      c2.cells = applyMask (theMask df)
        (if c.dtype = DType.numeric then c.cells.map fillCell else c.cells) := by
  rcases getCol_exists_of_mem hA with ⟨c, hc⟩
  rcases prepare_col_cells hok (by decide) (by decide) hc with ⟨c2, hget, hdt, hcells⟩
  exact ⟨c, c2, hc, hget, hdt, hcells⟩

/-- C3 counterexample: the claim says cells of non-numeric columns are
unchanged by `load_and_clean_data`, but the `date` column of the scenario
frame is non-numeric (`object` dtype holding strings) and its surviving
cell is changed by date parsing from the string "2021-03-01" to a
datetime value. -/
theorem zero_fill_cex :
    (getCol dfUSA "date").map Column.dtype = some DType.object ∧
    getCell dfUSA "date" 0 = some (Cell.str "2021-03-01") ∧
    (load_and_clean_data dfUSA).toOption.bind (fun t => getCell t "date" 0)
      = some (Cell.date 20210301) ∧
    ¬ (Cell.date 20210301) = (Cell.str "2021-03-01") := by decide

/-- C3 amended: every numeric column of the output has no missing values;
and every input column other than `date` and the dropped ones appears in
the output with its dtype unchanged and its cells row-filtered by the
country mask, with missing cells replaced by 0 exactly when the column is
numeric-dtyped (so previously-missing numeric cells of surviving rows are 0
and non-numeric columns other than `date` are unchanged apart from row
filtering; the `date` column itself is changed by parsing). -/
theorem zero_fill_amended (df t : DataFrame)
    (hok : load_and_clean_data df = Except.ok t) :
    (∀ c ∈ t.cols, c.dtype = DType.numeric → ¬ Cell.NA ∈ c.cells) ∧
    (∀ n c, ¬ n = "date" → ¬ n ∈ cols_to_drop → getCol df n = some c →
      ∃ c2, getCol t n = some c2 ∧ c2.dtype = c.dtype ∧
        c2.cells = applyMask (theMask df)
          (if c.dtype = DType.numeric then c.cells.map fillCell else c.cells)) :=
  ⟨prepare_numeric_no_NA hok, fun _ _ hnd hdrop hc => prepare_col_cells hok hnd hdrop hc⟩

/-- Witness for the amended C3 at a frame with a missing numeric cell. -/
theorem zero_fill_amended_witness :
    load_and_clean_data dfNA = Except.ok tNA ∧
    ((∀ c ∈ tNA.cols, c.dtype = DType.numeric → ¬ Cell.NA ∈ c.cells) ∧
     (∀ n c, ¬ n = "date" → ¬ n ∈ cols_to_drop → getCol dfNA n = some c →
       ∃ c2, getCol tNA n = some c2 ∧ c2.dtype = c.dtype ∧
         c2.cells = applyMask (theMask dfNA)
           (if c.dtype = DType.numeric then c.cells.map fillCell else c.cells))) :=
  ⟨by decide, zero_fill_amended dfNA tNA (by decide)⟩

/-- Witness for C6 at a frame that already carries a partially missing
`active_cases` column. -/
theorem active_preserved_witness :
    ("active_cases" ∈ colNames dfAct ∧ load_and_clean_data dfAct = Except.ok tAct) ∧
    (∃ c c2, getCol dfAct "active_cases" = some c ∧ getCol tAct "active_cases" = some c2 ∧
      c2.dtype = c.dtype ∧
      c2.cells = applyMask (theMask dfAct)
        (if c.dtype = DType.numeric then c.cells.map fillCell else c.cells)) :=
  ⟨⟨by decide, by decide⟩, active_preserved dfAct tAct (by decide) (by decide)⟩

lemma getCell_of_getCol {df : DataFrame} {n : String} {c : Column} (i : Nat)
    (h : getCol df n = some c) : getCell df n i = c.cells.get? i := by
  unfold getCell
  simp only [h]

/-- C2: when the input lacks an `active_cases` column, every output row's
`active_cases` equals `total_cases − total_deaths − total_recovered`
computed by the code's cell subtraction from the output's (post-zero-fill)
values of those columns, with `total_recovered` taken as the scalar 0 when
that column is absent from the input. -/
theorem active_formula (df t : DataFrame)
    (hA : ¬ "active_cases" ∈ colNames df)
    (hok : load_and_clean_data df = Except.ok t) :
    ∀ i cA, getCell t "active_cases" i = some cA →
      ∃ ca cd cr, getCell t "total_cases" i = some ca ∧
        getCell t "total_deaths" i = some cd ∧
        (("total_recovered" ∈ colNames df ∧ getCell t "total_recovered" i = some cr) ∨
         (¬ "total_recovered" ∈ colNames df ∧ cr = Cell.num 0)) ∧
        ∃ c1, cellSub ca cd = Except.ok c1 ∧ cellSub c1 cr = Except.ok cA := by
  rcases prepare_inversion hok with ⟨d1, d2, hp, hf, hd⟩
  rcases deriveActive_ok_cases hd with ⟨hA4, _⟩ |
    ⟨hA4, ctc, ctd, s1, s2, dt, htc, htd, hdt1, hdt2, hs1, hrest, ht⟩
  · exact absurd ((mem_colNames_d4_iff hp hf (by decide)).mp hA4) hA
  · subst ht
    have hnone4 : getCol (fillNumericCols (dropLowValue d2)) "active_cases" = none :=
      getCol_none_iff.mpr hA4
    have hactive := getCol_append_self hnone4
      (show (Column.mk "active_cases" dt s2).name = "active_cases" from rfl)
    intro i cA hcA
    rw [getCell_of_getCol i hactive] at hcA
    rcases hrest with ⟨ctr, htr, hrdt, hs2, hdteq⟩ | ⟨htr, hs2, hdteq⟩
    · rcases subCells_get? hs2 i cA hcA with ⟨c1, b, hs1get, hbget, hsubr⟩
      rcases subCells_get? hs1 i c1 hs1get with ⟨ca, cd, hcaget, hcdget, hsubcd⟩
      refine ⟨ca, cd, b, ?_, ?_, ?_, c1, hsubcd, hsubr⟩
      · rw [getCell_of_getCol i (getCol_append_left htc)]
        exact hcaget
      · rw [getCell_of_getCol i (getCol_append_left htd)]
        exact hcdget
      · left
        refine ⟨(mem_colNames_d4_iff hp hf (by decide)).mp (mem_colNames_of_getCol htr), ?_⟩
        rw [getCell_of_getCol i (getCol_append_left htr)]
        exact hbget
    · rcases subScalarZero_get? hs2 i cA hcA with ⟨c1, hs1get, hsubr⟩
      rcases subCells_get? hs1 i c1 hs1get with ⟨ca, cd, hcaget, hcdget, hsubcd⟩
      refine ⟨ca, cd, Cell.num 0, ?_, ?_, ?_, c1, hsubcd, hsubr⟩
      · rw [getCell_of_getCol i (getCol_append_left htc)]
        exact hcaget
      · rw [getCell_of_getCol i (getCol_append_left htd)]
        exact hcdget
      · right
        refine ⟨?_, rfl⟩
        intro hmem
        rcases getCol_exists_of_mem
          ((mem_colNames_d4_iff hp hf (by decide)).mpr hmem) with ⟨c', hc'⟩
        rw [htr] at hc'
        cases hc'

/-- Witness for C2 at the section-8 scenario frame (active = 100-2-0 = 98). -/
theorem active_formula_witness :
    (¬ "active_cases" ∈ colNames dfUSA ∧ load_and_clean_data dfUSA = Except.ok tUSA) ∧
    (∀ i cA, getCell tUSA "active_cases" i = some cA →
      ∃ ca cd cr, getCell tUSA "total_cases" i = some ca ∧
        getCell tUSA "total_deaths" i = some cd ∧
        (("total_recovered" ∈ colNames dfUSA ∧ getCell tUSA "total_recovered" i = some cr) ∨
         (¬ "total_recovered" ∈ colNames dfUSA ∧ cr = Cell.num 0)) ∧
        ∃ c1, cellSub ca cd = Except.ok c1 ∧ cellSub c1 cr = Except.ok cA) :=
  ⟨⟨by decide, by decide⟩, active_formula dfUSA tUSA (by decide) (by decide)⟩

/-- C10 counterexample: `dfObj` lacks `active_cases`, yet the pipeline
succeeds and its output `active_cases` cell is missing.  The `total_cases`
column is `object`-dtyped (it holds the string "abc" in a row that the
country filter later discards), so it escapes the numeric zero-fill, and
the surviving missing `total_cases` propagates NaN into the derived
`active_cases`. -/
theorem active_NA_cex :
    ¬ "active_cases" ∈ colNames dfObj ∧
    (load_and_clean_data dfObj).toOption.bind (fun t => getCell t "active_cases" 0)
      = some Cell.NA := by decide

lemma fillCol_numeric_no_NA {c : Column} (h : c.dtype = DType.numeric) :
    ¬ Cell.NA ∈ (fillCol c).cells := by
  unfold fillCol
  rw [if_pos h]
  exact NA_not_mem_map_fillCell c.cells

/-- C10 amended: when the input lacks `active_cases` and its `total_cases`,
`total_deaths` and (if present) `total_recovered` columns are numeric-dtyped
(exclusively numeric in the raw data), the derived `active_cases` column of
the output consists of numbers only — no missing values.  The dtype proviso
is what the counterexample forces: a non-numeric `total_cases` column that
becomes all-missing after the country filter escapes the zero-fill and
yields a missing `active_cases`. -/
theorem active_no_missing_amended (df t : DataFrame)
    (hA : ¬ "active_cases" ∈ colNames df)
    (htc : (getCol df "total_cases").map Column.dtype = some DType.numeric)
    (htd : (getCol df "total_deaths").map Column.dtype = some DType.numeric)
    (htr : ∀ c, getCol df "total_recovered" = some c → c.dtype = DType.numeric)
    (hok : load_and_clean_data df = Except.ok t) :
    ∃ c2, getCol t "active_cases" = some c2 ∧
      ∀ cell ∈ c2.cells, ∃ v, cell = Cell.num v := by
  rcases prepare_inversion hok with ⟨d1, d2, hp, hf, hd⟩
  rcases filterCountries_ok hf with ⟨ciso, hciso, hobj, _⟩
  rcases deriveActive_ok_cases hd with ⟨hA4, _⟩ |
    ⟨hA4, ctc, ctd, s1, s2, dt, htcg, htdg, hdt1, hdt2, hs1, hrest, ht⟩
  · exact absurd ((mem_colNames_d4_iff hp hf (by decide)).mp hA4) hA
  · subst ht
    have hnone4 : getCol (fillNumericCols (dropLowValue d2)) "active_cases" = none :=
      getCol_none_iff.mpr hA4
    refine ⟨Column.mk "active_cases" dt s2,
      getCol_append_self hnone4 rfl, ?_⟩
    rcases Option.map_eq_some'.mp htc with ⟨c0, hc0, hc0d⟩
    rcases Option.map_eq_some'.mp htd with ⟨d0, hd0, hd0d⟩
    have htc4 := getCol_d4 hp hf hciso (by decide) (by decide) hc0
    have htd4 := getCol_d4 hp hf hciso (by decide) (by decide) hd0
    rw [htcg] at htc4
    rw [htdg] at htd4
    have hctceq := Option.some.inj htc4
    have hctdeq := Option.some.inj htd4
    have hctcNA : ¬ Cell.NA ∈ ctc.cells := by
      rw [hctceq]
      exact fillCol_numeric_no_NA (by rw [maskCol_dtype]; exact hc0d)
    have hctdNA : ¬ Cell.NA ∈ ctd.cells := by
      rw [hctdeq]
      exact fillCol_numeric_no_NA (by rw [maskCol_dtype]; exact hd0d)
    have hs1NA : ¬ Cell.NA ∈ s1 := no_NA_subCells hctcNA hctdNA hs1
    intro cell hcell
    rcases hrest with ⟨ctr, htrg, hrdt, hs2, _⟩ | ⟨htrg, hs2, _⟩
    · have hmemdf : "total_recovered" ∈ colNames df :=
        (mem_colNames_d4_iff hp hf (by decide)).mp (mem_colNames_of_getCol htrg)
      rcases getCol_exists_of_mem hmemdf with ⟨r0, hr0⟩
      have hr0d := htr r0 hr0
      have htr4 := getCol_d4 hp hf hciso (by decide) (by decide) hr0
      rw [htrg] at htr4
      have hctreq := Option.some.inj htr4
      have hctrNA : ¬ Cell.NA ∈ ctr.cells := by
        rw [hctreq]
        exact fillCol_numeric_no_NA (by rw [maskCol_dtype]; exact hr0d)
      rcases subCells_mem hs2 hcell with ⟨a, b, hma, hmb, hsub⟩
      exact cellSub_num (fun he => hs1NA (he ▸ hma)) (fun he => hctrNA (he ▸ hmb)) hsub
    · rcases subScalarZero_mem hs2 hcell with ⟨a, hma, hsub⟩
      exact cellSub_num (fun he => hs1NA (he ▸ hma)) (by intro he; cases he) hsub

/-- Witness for the amended C10: on `dfNA` (numeric `total_cases` and
`total_deaths`, missing `total_deaths` cell) the derived column is all
numbers. -/
theorem active_no_missing_amended_witness :
    (¬ "active_cases" ∈ colNames dfNA ∧
      (getCol dfNA "total_cases").map Column.dtype = some DType.numeric ∧
      (getCol dfNA "total_deaths").map Column.dtype = some DType.numeric ∧
      (∀ c, getCol dfNA "total_recovered" = some c → c.dtype = DType.numeric) ∧
      load_and_clean_data dfNA = Except.ok tNA) ∧
    (∃ c2, getCol tNA "active_cases" = some c2 ∧
      ∀ cell ∈ c2.cells, ∃ v, cell = Cell.num v) :=
  ⟨⟨by decide, by decide, by decide, by decide, by decide⟩,
    active_no_missing_amended dfNA tNA (by decide) (by decide) (by decide)
      (by decide) (by decide)⟩

/-- C5 counterexample: `dfNoTC` lacks the required column `total_cases`,
yet `load_and_clean_data` succeeds, because the input already carries
`active_cases` and the derivation — the only step that touches
`total_cases` — is skipped. -/
theorem missing_column_cex :
    ¬ "total_cases" ∈ colNames dfNoTC ∧
    (load_and_clean_data dfNoTC).isOk = true := by decide

lemma deriveActive_schema_err {df0 : DataFrame}
    (hA : ¬ "active_cases" ∈ colNames df0)
    (h : ¬ "total_cases" ∈ colNames df0 ∨ ¬ "total_deaths" ∈ colNames df0) :
    deriveActive df0 = Except.error Err.SchemaError := by
  unfold deriveActive
  rw [if_neg hA]
  rcases h with h | h
  · simp only [getCol_none_iff.mpr h]
  · cases hg : getCol df0 "total_cases" with
    | none => simp only [hg]
    | some c => simp only [hg, getCol_none_iff.mpr h]

/-- C5 amended: when `iso_code` or `date` is absent, or when `active_cases`
is absent and `total_cases` or `total_deaths` is absent, the pipeline fails
and returns no table; the error is `SchemaError` provided no earlier step
fails first (all dates parse, and the `iso_code` column — when present — is
`object`-dtyped so the `.str` accessor works).  When `active_cases` is
present, absence of `total_cases`/`total_deaths` alone causes no failure
(see the counterexample). -/
theorem missing_column_amended (df : DataFrame)
    (h : ¬ "iso_code" ∈ colNames df ∨ ¬ "date" ∈ colNames df ∨
         (¬ "active_cases" ∈ colNames df ∧
          (¬ "total_cases" ∈ colNames df ∨ ¬ "total_deaths" ∈ colNames df))) :
    (∃ e, load_and_clean_data df = Except.error e) ∧
    (datesParse df → isoObject df →
      load_and_clean_data df = Except.error Err.SchemaError) := by
  constructor
  · cases hp : parseDates df with
    | error e =>
      exact ⟨e, by unfold load_and_clean_data; simp only [hp]⟩
    | ok d1 =>
      cases hf : filterCountries d1 with
      | error e =>
        exact ⟨e, by unfold load_and_clean_data; simp only [hp, hf]⟩
      | ok d2 =>
        refine ⟨Err.SchemaError, ?_⟩
        have hprep : load_and_clean_data df
            = deriveActive (fillNumericCols (dropLowValue d2)) := by
          unfold load_and_clean_data
          simp only [hp, hf]
        rw [hprep]
        rcases parseDates_ok hp with ⟨cd, _, hcd, _, _⟩
        have hdate : "date" ∈ colNames df := mem_colNames_of_getCol hcd
        rcases filterCountries_ok hf with ⟨ciso, hciso, _, _⟩
        have hiso : "iso_code" ∈ colNames df := by
          rw [getCol_parseDates_of_ne hp (by decide)] at hciso
          exact mem_colNames_of_getCol hciso
        rcases h with h | h | h
        · exact absurd hiso h
        · exact absurd hdate h
        · rcases h with ⟨hA, htcd⟩
          apply deriveActive_schema_err
          · intro hmem
            exact hA ((mem_colNames_d4_iff hp hf (by decide)).mp hmem)
          · rcases htcd with h | h
            · exact Or.inl (fun hmem =>
                h ((mem_colNames_d4_iff hp hf (by decide)).mp hmem))
            · exact Or.inr (fun hmem =>
                h ((mem_colNames_d4_iff hp hf (by decide)).mp hmem))
  · intro hdp hio
    cases hgd : getCol df "date" with
    | none =>
      unfold load_and_clean_data parseDates
      simp only [hgd]
    | some cd =>
      rcases hdp cd hgd with ⟨l, hl⟩
      have hp : parseDates df = Except.ok (DataFrame.mk (df.cols.map (setDateCol l))) := by
        unfold parseDates
        simp only [hgd, hl]
      cases hgi : getCol df "iso_code" with
      | none =>
        have hgi1 : getCol (DataFrame.mk (df.cols.map (setDateCol l))) "iso_code" = none := by
          rw [getCol_parseDates_of_ne hp (by decide)]
          exact hgi
        unfold load_and_clean_data
        simp only [hp]
        unfold filterCountries
        simp only [hgi1]
      | some ciso =>
        have hobj := hio ciso hgi
        have hgi1 : getCol (DataFrame.mk (df.cols.map (setDateCol l))) "iso_code"
            = some ciso := by
          rw [getCol_parseDates_of_ne hp (by decide)]
          exact hgi
        have hf : filterCountries (DataFrame.mk (df.cols.map (setDateCol l)))
            = Except.ok (DataFrame.mk
                ((DataFrame.mk (df.cols.map (setDateCol l))).cols.map
                  (maskCol (ciso.cells.map is3)))) := by
          unfold filterCountries
          simp only [hgi1]
          rw [if_pos hobj]
        have hdate : "date" ∈ colNames df := mem_colNames_of_getCol hgd
        have hiso : "iso_code" ∈ colNames df := mem_colNames_of_getCol hgi
        rcases h with h | h | h
        · exact absurd hiso h
        · exact absurd hdate h
        · rcases h with ⟨hA, htcd⟩
          have hprep : load_and_clean_data df
              = deriveActive (fillNumericCols (dropLowValue (DataFrame.mk
                  ((DataFrame.mk (df.cols.map (setDateCol l))).cols.map
                    (maskCol (ciso.cells.map is3)))))) := by
            unfold load_and_clean_data
            simp only [hp, hf]
          rw [hprep]
          apply deriveActive_schema_err
          · intro hmem
            exact hA ((mem_colNames_d4_iff hp hf (by decide)).mp hmem)
          · rcases htcd with h | h
            · exact Or.inl (fun hmem =>
                h ((mem_colNames_d4_iff hp hf (by decide)).mp hmem))
            · exact Or.inr (fun hmem =>
                h ((mem_colNames_d4_iff hp hf (by decide)).mp hmem))

/-- Witness for the amended C5: `dfMiss` lacks `total_cases` (and
`active_cases`), and the pipeline indeed fails with `SchemaError`. -/
theorem missing_column_amended_witness :
    (¬ "iso_code" ∈ colNames dfMiss ∨ ¬ "date" ∈ colNames dfMiss ∨
      (¬ "active_cases" ∈ colNames dfMiss ∧
       (¬ "total_cases" ∈ colNames dfMiss ∨ ¬ "total_deaths" ∈ colNames dfMiss))) ∧
    ((∃ e, load_and_clean_data dfMiss = Except.error e) ∧
     (datesParse dfMiss → isoObject dfMiss →
       load_and_clean_data dfMiss = Except.error Err.SchemaError)) :=
  ⟨by decide, missing_column_amended dfMiss (by decide)⟩

/-- C8 counterexample: the claim says that for every pair of inputs
identical except for a droppable column the pipeline succeeds on both; but
on this pair (both lacking a `date` column) it succeeds on neither — both
runs fail with `SchemaError`. -/
theorem drop_noop_cex :
    ("excess_mortality" ∈ cols_to_drop ∧ "excess_mortality" ∈ colNames dfPair) ∧
    load_and_clean_data dfPair = Except.error Err.SchemaError ∧
    load_and_clean_data (removeCol dfPair "excess_mortality")
      = Except.error Err.SchemaError := by decide

lemma drop_name_ne {n : String} (hc : n ∈ cols_to_drop) :
    ¬ n = "date" ∧ ¬ n = "iso_code" := by
  fin_cases hc <;> decide

lemma find?_name_filter {l : List Column} {q : Column → Bool} {n : String}
    (hq : ∀ c : Column, c.name = n → q c = true) :
    List.find? (fun c => c.name == n) (l.filter q)
      = List.find? (fun c => c.name == n) l := by
  induction l with
  | nil => rfl
  | cons c cs ih =>
    by_cases hn : c.name = n
    · rw [List.filter_cons, if_pos (hq c hn),
        List.find?_cons_of_pos _ (by simp [hn]), List.find?_cons_of_pos _ (by simp [hn])]
    · rw [List.filter_cons]
      by_cases hqc : q c = true
      · rw [if_pos hqc, List.find?_cons_of_neg _ (by simp [hn]),
          List.find?_cons_of_neg _ (by simp [hn]), ih]
      · rw [if_neg hqc, ih, List.find?_cons_of_neg _ (by simp [hn])]

lemma getCol_removeCol_ne {df : DataFrame} {n m : String} (h : ¬ m = n) :
    getCol (removeCol df n) m = getCol df m :=
  find?_name_filter (fun c hc => by simp [hc, h])

lemma removeCol_map {l : List Column} {f : Column → Column} {n : String}
    (hf : ∀ c, (f c).name = c.name) :
    (l.map f).filter (fun c => !(c.name == n))
      = (l.filter (fun c => !(c.name == n))).map f := by
  rw [List.filter_map]
  congr 1
  apply List.filter_congr
  intro c _
  simp [Function.comp, hf c]

lemma dropLowValue_removeCol {df : DataFrame} {n : String} (hc : n ∈ cols_to_drop) :
    dropLowValue (removeCol df n) = dropLowValue df := by
  unfold dropLowValue removeCol
  congr 1
  rw [List.filter_filter]
  apply List.filter_congr
  intro c _
  by_cases hmem : c.name ∈ cols_to_drop
  · simp [hmem]
  · have : ¬ c.name = n := fun h => hmem (h ▸ hc)
    simp [hmem, this]

lemma parseDates_removeCol {df : DataFrame} {n : String} (hn : ¬ n = "date") :
    parseDates (removeCol df n)
      = Except.map (fun d => removeCol d n) (parseDates df) := by
  unfold parseDates
  rw [getCol_removeCol_ne (fun h => hn h.symm)]
  split
  · rfl
  split
  · rfl
  simp only [Except.map]
  congr 1
  unfold removeCol
  congr 1
  exact (removeCol_map (setDateCol_name _)).symm

lemma filterCountries_removeCol {df : DataFrame} {n : String} (hn : ¬ n = "iso_code") :
    filterCountries (removeCol df n)
      = Except.map (fun d => removeCol d n) (filterCountries df) := by
  unfold filterCountries
  rw [getCol_removeCol_ne (fun h => hn h.symm)]
  split
  · rfl
  next c heq =>
    by_cases hobj : c.dtype = DType.object
    · rw [if_pos hobj, if_pos hobj]
      simp only [Except.map]
      congr 1
      unfold removeCol
      congr 1
      exact (removeCol_map (maskCol_name (List.map is3 c.cells))).symm
    · rw [if_neg hobj, if_neg hobj]
      rfl

/-- C8 amended: removing any of the five droppable columns from a source
that has it changes nothing about the pipeline's result — the two runs
return the same value (so they succeed together with the same column set,
or fail together with the same error), and the absence of the column never
causes an error. -/
theorem drop_noop_amended (df : DataFrame) (n : String)
    (hc : n ∈ cols_to_drop) (_hm : n ∈ colNames df) :
    load_and_clean_data (removeCol df n) = load_and_clean_data df := by
  obtain ⟨hnd, hni⟩ := drop_name_ne hc
  unfold load_and_clean_data
  rw [parseDates_removeCol hnd]
  cases hp : parseDates df with
  | error e => rfl
  | ok d1 =>
    simp only [Except.map]
    rw [filterCountries_removeCol hni]
    cases hf : filterCountries d1 with
    | error e => rfl
    | ok d2 =>
      simp only [Except.map]
      rw [dropLowValue_removeCol hc]

/-- Witness for the amended C8 at the scenario frame extended with an
`excess_mortality` column. -/
theorem drop_noop_amended_witness :
    ("excess_mortality" ∈ cols_to_drop ∧ "excess_mortality" ∈ colNames dfDrop) ∧
    load_and_clean_data (removeCol dfDrop "excess_mortality")
      = load_and_clean_data dfDrop :=
  ⟨⟨by decide, by decide⟩,
    drop_noop_amended dfDrop "excess_mortality" (by decide) (by decide)⟩

/-! Machinery for idempotence: the structure of every output column. -/

lemma column_eta (c : Column) : Column.mk c.name c.dtype c.cells = c := rfl

lemma prepare_struct {df t : DataFrame} (hok : load_and_clean_data df = Except.ok t) :
    ∃ (ciso : Column) (nc : List Cell),
      getCol df "iso_code" = some ciso ∧ ciso.dtype = DType.object ∧
      (∀ x ∈ nc, parseDateCell x = some x) ∧
      getCol t "date"
        = some (Column.mk "date" DType.datetime (applyMask (ciso.cells.map is3) nc)) ∧
      ∀ c ∈ t.cols,
        (∃ c0 ∈ df.cols, cols_to_drop.contains c0.name = false ∧
          c = fillCol (maskCol (ciso.cells.map is3) (setDateCol nc c0))) ∨
        ∃ dt s2, c = Column.mk "active_cases" dt s2 := by
  rcases prepare_inversion hok with ⟨d1, d2, hp, hf, hd⟩
  rcases parseDates_ok hp with ⟨cd, nc, hcd, hnc, hd1⟩
  rcases filterCountries_ok hf with ⟨ciso, hciso, hobj, hd2⟩
  have hcisodf : getCol df "iso_code" = some ciso := by
    rw [← getCol_parseDates_of_ne hp (by decide)]
    exact hciso
  have h1 : getCol d1 "date" = some (Column.mk "date" DType.datetime nc) := by
    rw [hd1, getCol_map_cols (setDateCol_name nc) "date", hcd]
    have hname := getCol_name hcd
    simp only [Option.map]
    unfold setDateCol
    rw [if_pos hname, hname]
  have h2 : getCol d2 "date"
      = some (maskCol (ciso.cells.map is3) (Column.mk "date" DType.datetime nc)) := by
    rw [getCol_filterCountries hf hciso "date", h1]
    rfl
  have h3 : getCol (dropLowValue d2) "date"
      = some (maskCol (ciso.cells.map is3) (Column.mk "date" DType.datetime nc)) := by
    rw [getCol_dropLowValue (by decide)]
    exact h2
  have h4 : getCol (fillNumericCols (dropLowValue d2)) "date"
      = some (Column.mk "date" DType.datetime (applyMask (ciso.cells.map is3) nc)) := by
    rw [getCol_fill, h3]
    rfl
  have hdget : getCol t "date"
      = some (Column.mk "date" DType.datetime (applyMask (ciso.cells.map is3) nc)) := by
    rcases deriveActive_ok_cases hd with ⟨hA4, ht⟩ |
      ⟨_, ctc, ctd, s1, s2, dt, _, _, _, _, _, _, ht⟩
    · rw [ht]
      exact h4
    · rw [ht]
      exact getCol_append_left h4
  refine ⟨ciso, nc, hcisodf, hobj, parseCells_out hnc, hdget, ?_⟩
  have hmem4 : ∀ c ∈ (fillNumericCols (dropLowValue d2)).cols,
      ∃ c0 ∈ df.cols, cols_to_drop.contains c0.name = false ∧
        c = fillCol (maskCol (ciso.cells.map is3) (setDateCol nc c0)) := by
    intro c hc
    unfold fillNumericCols at hc
    rcases List.mem_map.mp hc with ⟨c3, hc3, rfl⟩
    unfold dropLowValue at hc3
    have hpred := List.of_mem_filter hc3
    have hc2 := List.mem_of_mem_filter hc3
    rw [hd2] at hc2
    rcases List.mem_map.mp hc2 with ⟨c1, hc1, rfl⟩
    rw [hd1] at hc1
    rcases List.mem_map.mp hc1 with ⟨c0, hc0, rfl⟩
    refine ⟨c0, hc0, ?_, rfl⟩
    simp only [maskCol_name, setDateCol_name] at hpred
    simpa using hpred
  rcases deriveActive_ok_cases hd with ⟨hA4, ht⟩ | ⟨_, ctc, ctd, s1, s2, dt, _, _, _, _, _, _, ht⟩
  · rw [ht]
    intro c hc
    exact Or.inl (hmem4 c hc)
  · rw [ht]
    intro c hc
    rcases List.mem_append.mp hc with hleft | hright
    · exact Or.inl (hmem4 c hleft)
    · exact Or.inr ⟨dt, s2, List.mem_singleton.mp hright⟩

lemma map_id_of_mem {α : Type} {l : List α} {f : α → α} (h : ∀ a ∈ l, f a = a) :
    l.map f = l := by
  induction l with
  | nil => rfl
  | cons a l ih =>
    rw [List.map_cons, h a (List.mem_cons_self a l),
      ih (fun x hx => h x (List.mem_cons_of_mem a hx))]

lemma prepare_parse_fixed {df t : DataFrame} (hok : load_and_clean_data df = Except.ok t) :
    parseDates t = Except.ok t := by
  rcases prepare_struct hok with ⟨ciso, nc, hcisodf, hobj, hfix, hdget, hcols⟩
  have hpc : parseCells (applyMask (ciso.cells.map is3) nc)
      = some (applyMask (ciso.cells.map is3) nc) :=
    parseCells_id_of_fixed (fun x hx => hfix x (mem_of_mem_applyMask hx))
  unfold parseDates
  simp only [hdget, hpc]
  congr 1
  have hmap : ∀ c ∈ t.cols, setDateCol (applyMask (ciso.cells.map is3) nc) c = c := by
    intro c hc
    rcases hcols c hc with ⟨c0, _, _, rfl⟩ | ⟨dt, s2, rfl⟩
    · by_cases hc0name : c0.name = "date"
      · have hceq : fillCol (maskCol (ciso.cells.map is3) (setDateCol nc c0))
            = Column.mk c0.name DType.datetime (applyMask (ciso.cells.map is3) nc) := by
          unfold setDateCol
          rw [if_pos hc0name]
          rfl
        rw [hceq]
        unfold setDateCol
        rw [if_pos hc0name]
      · exact setDateCol_of_ne
          (by rw [fillCol_name, maskCol_name, setDateCol_name]; exact hc0name)
    · exact setDateCol_of_ne (fun h => by simp at h)
  rw [map_id_of_mem hmap]

lemma prepare_filter_fixed {df t : DataFrame} (hrt : rect t)
    (hok : load_and_clean_data df = Except.ok t) :
    filterCountries t = Except.ok t := by
  rcases prepare_iso_struct hok with ⟨c, cis, hc, hget, hdt, hcells⟩
  have hall : ∀ b ∈ cis.cells.map is3, b = true := by
    intro b hb
    rcases List.mem_map.mp hb with ⟨cell, hcell, rfl⟩
    rw [hcells] at hcell
    exact List.of_mem_filter hcell
  unfold filterCountries
  simp only [hget]
  rw [if_pos hdt]
  congr 1
  have hmap : ∀ c2 ∈ t.cols, maskCol (cis.cells.map is3) c2 = c2 := by
    intro c2 hc2
    unfold maskCol
    rw [applyMask_all_true (cis.cells.map is3) c2.cells hall
      (by rw [List.length_map, hrt c2 hc2, hrt cis (getCol_mem hget)])]
  rw [map_id_of_mem hmap]

lemma prepare_drop_fixed {df t : DataFrame} (hok : load_and_clean_data df = Except.ok t) :
    dropLowValue t = t := by
  rcases prepare_struct hok with ⟨ciso, nc, _, _, _, _, hcols⟩
  unfold dropLowValue
  have hfil : t.cols.filter (fun c => !(cols_to_drop.contains c.name)) = t.cols := by
    rw [List.filter_eq_self]
    intro c hc
    rcases hcols c hc with ⟨c0, _, hdrop, rfl⟩ | ⟨dt, s2, rfl⟩
    · rw [fillCol_name, maskCol_name, setDateCol_name, hdrop]
      rfl
    · rfl
  rw [hfil]

lemma prepare_fill_fixed {df t : DataFrame} (hok : load_and_clean_data df = Except.ok t) :
    fillNumericCols t = t := by
  have hnoNA := prepare_numeric_no_NA hok
  unfold fillNumericCols
  have hmap : ∀ c ∈ t.cols, fillCol c = c := by
    intro c hc
    unfold fillCol
    by_cases hnum : c.dtype = DType.numeric
    · rw [if_pos hnum, map_fillCell_of_no_NA (hnoNA c hc hnum)]
    · rw [if_neg hnum]
  rw [map_id_of_mem hmap]

lemma prepare_derive_fixed {df t : DataFrame} (hok : load_and_clean_data df = Except.ok t) :
    deriveActive t = Except.ok t := by
  rcases prepare_inversion hok with ⟨d1, d2, hp, hf, hd⟩
  have hA : "active_cases" ∈ colNames t := by
    rcases deriveActive_ok_cases hd with ⟨hA4, ht⟩ |
      ⟨_, ctc, ctd, s1, s2, dt, _, _, _, _, _, _, ht⟩
    · rw [ht]
      exact hA4
    · rw [ht]
      unfold colNames
      rw [List.map_append]
      exact List.mem_append.mpr (Or.inr (by simp))
  unfold deriveActive
  rw [if_pos hA]

lemma nrows_eq {t : DataFrame} {c0 : Column} {cs : List Column}
    (h : t.cols = c0 :: cs) : nrows t = c0.cells.length := by
  unfold nrows
  rw [h]

lemma prepare_rect {df t : DataFrame} (hrect : rect df)
    (hok : load_and_clean_data df = Except.ok t) : rect t := by
  rcases prepare_inversion hok with ⟨d1, d2, hp, hf, hd⟩
  rcases parseDates_ok hp with ⟨cd, nc, hcd, hnc, hd1⟩
  rcases filterCountries_ok hf with ⟨ciso, hciso, hobj, hd2⟩
  have hnclen : nc.length = nrows df := by
    rw [parseCells_length hnc]
    exact hrect cd (getCol_mem hcd)
  have hlen1 : ∀ c ∈ d1.cols, c.cells.length = nrows df := by
    rw [hd1]
    intro c hc
    rcases List.mem_map.mp hc with ⟨c0, hc0, rfl⟩
    unfold setDateCol
    by_cases hn : c0.name = "date"
    · rw [if_pos hn]
      exact hnclen
    · rw [if_neg hn]
      exact hrect c0 hc0
  have hisolen : ciso.cells.length = nrows df := hlen1 ciso (getCol_mem hciso)
  have hlen2 : ∀ c ∈ d2.cols,
      c.cells.length = (ciso.cells.map is3).countP (fun b => b) := by
    rw [hd2]
    intro c hc
    rcases List.mem_map.mp hc with ⟨c1, hc1, rfl⟩
    unfold maskCol
    exact length_applyMask (ciso.cells.map is3) c1.cells
      (by rw [List.length_map, hisolen, hlen1 c1 hc1])
  have hlen3 : ∀ c ∈ (dropLowValue d2).cols,
      c.cells.length = (ciso.cells.map is3).countP (fun b => b) :=
    fun c hc => hlen2 c (List.mem_of_mem_filter hc)
  have hlen4 : ∀ c ∈ (fillNumericCols (dropLowValue d2)).cols,
      c.cells.length = (ciso.cells.map is3).countP (fun b => b) := by
    intro c hc
    rcases List.mem_map.mp hc with ⟨c3, hc3, rfl⟩
    unfold fillCol
    by_cases hnum : c3.dtype = DType.numeric
    · rw [if_pos hnum]
      rw [show (Column.mk c3.name c3.dtype (c3.cells.map fillCell)).cells
          = c3.cells.map fillCell from rfl, List.length_map]
      exact hlen3 c3 hc3
    · rw [if_neg hnum]
      exact hlen3 c3 hc3
  have hlent : ∀ c ∈ t.cols,
      c.cells.length = (ciso.cells.map is3).countP (fun b => b) := by
    rcases deriveActive_ok_cases hd with ⟨hA4, ht⟩ |
      ⟨_, ctc, ctd, s1, s2, dt, htcg, htdg, _, _, hs1, hrest, ht⟩
    · rw [ht]
      exact hlen4
    · rw [ht]
      intro c hc
      rcases List.mem_append.mp hc with hl | hr
      · exact hlen4 c hl
      · rw [List.mem_singleton.mp hr]
        have hs1len := subCells_length hs1
        have hctclen := hlen4 ctc (getCol_mem htcg)
        rcases hrest with ⟨ctr, htrg, _, hs2, _⟩ | ⟨_, hs2, _⟩
        · rw [show (Column.mk "active_cases" dt s2).cells = s2 from rfl,
            (subCells_length hs2).1, hs1len.1, hctclen]
        · rw [show (Column.mk "active_cases" dt s2).cells = s2 from rfl,
            subScalarZero_length hs2, hs1len.1, hctclen]
  intro c hc
  cases hco : t.cols with
  | nil =>
    rw [hco] at hc
    cases hc
  | cons c0 cs =>
    have h0 : c0.cells.length = (ciso.cells.map is3).countP (fun b => b) :=
      hlent c0 (by rw [hco]; exact List.mem_cons_self c0 cs)
    rw [nrows_eq hco, hlent c hc, h0]

/-- C7: idempotence — running the cleaning transformation a second time on
the table produced by `load_and_clean_data` changes nothing: the dates are
already parsed, every `iso_code` is a 3-character string so no row is
filtered, the droppable columns are already gone, numeric columns have no
missing cells, and `active_cases` is present so it is not rederived. -/
theorem prepare_idempotent (df t : DataFrame) (hrect : rect df)
    (hok : load_and_clean_data df = Except.ok t) :
    load_and_clean_data t = Except.ok t := by
  have hrt := prepare_rect hrect hok
  unfold load_and_clean_data
  simp only [prepare_parse_fixed hok, prepare_filter_fixed hrt hok,
    prepare_drop_fixed hok, prepare_fill_fixed hok]
  exact prepare_derive_fixed hok

/-- Witness for C7 at the section-8 scenario frame. -/
theorem prepare_idempotent_witness :
    (rect dfUSA ∧ load_and_clean_data dfUSA = Except.ok tUSA) ∧
    load_and_clean_data tUSA = Except.ok tUSA :=
  ⟨⟨by decide, by decide⟩, prepare_idempotent dfUSA tUSA (by decide) (by decide)⟩
